import Mathlib

/-!
Shallow embedding of `src/steam_to_discord.py`: the transition detector
(`should_notify`), the persistence layer (`.status.json` as a JSON document),
the two notifier payload builders, startup validation, and one iteration of
the supervisor loop.  External effects (HTTP, file system) appear as explicit
parameters: the fetch result, the outcome of the notification POST, and
whether the status-file write succeeds.
-/

namespace SteamToDiscord

/-- Embedding of Python `str.lower` as applied by the detector: lowercase each
character (ASCII letters; all strings the program compares are ASCII). -/
def lowerStr (s : String) : String := String.mk (s.data.map Char.toLower)

/-- One normalized observation of the tracked user: the dict built by
`fetch_steam_status` (lines 122-131).  `Option` fields model Python `None`
values (`game`, `avatar`, `profile_url` may be `None`). -/
structure Snapshot where
  name : String
  state : String
  personastate : Int
  in_game : Bool
  game : Option String
  avatar : Option String
  profile_url : Option String
  timestamp : Int
deriving Repr, DecidableEq

/-- The configuration read from the environment at startup (lines 45-64).
`only_games` is the already comma-split, trimmed, lowercased list. -/
structure Config where
  steam_api_key : String
  steam_friend_id64 : String
  webhook_url : String
  user_id : String
  bot_mode : Bool
  bot_token : String
  channel_id : String
  only_online : Bool
  only_games : List String
deriving Repr, DecidableEq

/-- Line 136: `int(prev.get("personastate", 0)) if prev else 0`.  An absent or
empty persisted dict (Python falsy) is `none`. -/
def prev_personastate (prev : Option Snapshot) : Int :=
  match prev with
  | none => 0
  | some p => p.personastate

/-- Line 138: `bool(prev.get("in_game")) if prev else False`. -/
def prev_in_game (prev : Option Snapshot) : Bool :=
  match prev with
  | none => false
  | some p => p.in_game

/-- The transition detector `should_notify` (lines 134-169).  The block at
lines 142-147 only computes a local and `pass`es, so it has no effect and is
not modelled.  Rule 1 (offline to online, lines 149-156) is checked first and
returns in every case it matches; rule 2 (started playing, lines 158-167) is
reached only otherwise.  The `game_name` of line 161 is
`(curr.get("game") or "").lower()`; `Option.getD ""` agrees with Python `or`
on both `None` and the empty string. -/
def should_notify (cfg : Config) (prev : Option Snapshot) (curr : Snapshot) :
    Bool × String :=
  if prev_personastate prev = 0 ∧ curr.personastate > 0 then
    if cfg.only_games ≠ [] ∧ cfg.only_online then (false, "")
    else (true, "came online")
  else if prev_in_game prev = false ∧ curr.in_game = true then
    if cfg.only_games ≠ [] ∧ lowerStr (curr.game.getD "") ≠ ""
        ∧ lowerStr (curr.game.getD "") ∉ cfg.only_games then
      (false, "")
    else if cfg.only_online then (false, "")
    else (true, "started playing")
  else (false, "")

/-- JSON documents as written to `.status.json` (the program never writes
arrays, so they are omitted). -/
inductive Json where
  | str (s : String)
  | int (n : Int)
  | bool (b : Bool)
  | null
  | obj (fields : List (String × Json))

/-- Encoding of an optional string field of the status dict. -/
def jsonOfOptStr (o : Option String) : Json :=
  match o with
  | none => Json.null
  | some s => Json.str s

/-- The JSON document `json.dump` writes for a snapshot dict: the eight keys
of the dict literal at lines 122-131, in order. -/
def snapshot_to_json (s : Snapshot) : Json :=
  Json.obj
    [("name", Json.str s.name),
     ("state", Json.str s.state),
     ("personastate", Json.int s.personastate),
     ("in_game", Json.bool s.in_game),
     ("game", jsonOfOptStr s.game),
     ("avatar", jsonOfOptStr s.avatar),
     ("profile_url", jsonOfOptStr s.profile_url),
     ("timestamp", Json.int s.timestamp)]

/-- Key lookup in a JSON object, i.e. `dict.get` on the loaded document. -/
def Json.lookupField (j : Json) (key : String) : Option Json :=
  match j with
  | Json.obj fields => fields.lookup key
  | _ => none

/-- Reading a string-valued field. -/
def asStr (o : Option Json) : Option String :=
  match o with
  | some (Json.str s) => some s
  | _ => none

/-- Reading an integer-valued field. -/
def asInt (o : Option Json) : Option Int :=
  match o with
  | some (Json.int n) => some n
  | _ => none

/-- Reading a boolean-valued field. -/
def asBool (o : Option Json) : Option Bool :=
  match o with
  | some (Json.bool b) => some b
  | _ => none

/-- Reading an optional-string field (`None` round-trips as JSON null). -/
def asOptStr (o : Option Json) : Option (Option String) :=
  match o with
  | some (Json.str s) => some (some s)
  | some Json.null => some none
  | _ => none

/-- Decoding a loaded document back into the snapshot record, field by field;
`none` if any of the eight fields is missing or of the wrong shape. -/
def json_to_snapshot (j : Json) : Option Snapshot :=
  match asStr (j.lookupField "name"), asStr (j.lookupField "state"),
      asInt (j.lookupField "personastate"), asBool (j.lookupField "in_game"),
      asOptStr (j.lookupField "game"), asOptStr (j.lookupField "avatar"),
      asOptStr (j.lookupField "profile_url"),
      asInt (j.lookupField "timestamp") with
  | some n, some st, some ps, some ig, some g, some av, some pu, some ts =>
      some { name := n, state := st, personastate := ps, in_game := ig,
             game := g, avatar := av, profile_url := pu, timestamp := ts }
  | _, _, _, _, _, _, _, _ => none

/-- The contents of `.status.json`: `none` when the file is missing or
unparseable.  `save_last_status` (lines 99-104) writes the dumped document
when the write succeeds and swallows the error (leaving the old contents)
otherwise. -/
def save_last_status (s : Snapshot) (write_ok : Bool) (old : Option Json) :
    Option Json :=
  if write_ok then some (snapshot_to_json s) else old

/-- The loader `load_last_status` (lines 90-97): a missing or corrupt file
yields the empty dict. -/
def load_last_status (file : Option Json) : Json :=
  match file with
  | none => Json.obj []
  | some j => j

/-- The message body both back-ends build (lines 178-188 and 198-208): the
content line, exactly one embed (title, description, thumbnail url), and the
allowed-mentions setting.  The thumbnail url is `curr.get("avatar", "")`; the
key is always present in snapshot dicts, so it is the (possibly null) avatar
value. -/
structure Payload where
  content : String
  title : String
  description : String
  thumbnail_url : Option String
  allowed_mentions_parse : List String
deriving Repr, DecidableEq

/-- Helper `_mention_prefix` (lines 171-172). -/
def mention_text (user_id : String) : String :=
  if user_id ≠ "" then "<@" ++ user_id ++ "> " else ""

/-- The body built by `send_discord_webhook` (lines 178-188). -/
def webhook_payload (user_id : String) (curr : Snapshot) (reason : String) :
    Payload :=
  { content := mention_text user_id ++ "Steam update:"
    title := curr.name ++ " " ++ reason ++ "!"
    description :=
      "Status: **" ++ curr.state ++ "**\n"
        ++ (if curr.in_game = true ∧ curr.game.getD "" ≠ "" then
              "Game: **" ++ curr.game.getD "" ++ "**\n"
            else "")
        ++ (if curr.profile_url.getD "" ≠ "" then
              "Profile: " ++ curr.profile_url.getD "" ++ "\n"
            else "")
    thumbnail_url := curr.avatar
    allowed_mentions_parse := ["users"] }

/-- The body built by `send_discord_bot` (lines 198-208). -/
def bot_payload (user_id : String) (curr : Snapshot) (reason : String) :
    Payload :=
  { content := mention_text user_id ++ "Steam update:"
    title := curr.name ++ " " ++ reason ++ "!"
    description :=
      "Status: **" ++ curr.state ++ "**\n"
        ++ (if curr.in_game = true ∧ curr.game.getD "" ≠ "" then
              "Game: **" ++ curr.game.getD "" ++ "**\n"
            else "")
        ++ (if curr.profile_url.getD "" ≠ "" then
              "Profile: " ++ curr.profile_url.getD "" ++ "\n"
            else "")
    thumbnail_url := curr.avatar
    allowed_mentions_parse := ["users"] }

/-- What a send call does before any network interaction: either it is
skipped with a warning (missing destination), or it issues one POST with the
given url, optional Authorization header value, and body. -/
inductive SendResult where
  | skipped
  | posted (url : String) (auth : Option String) (body : Payload)
deriving Repr, DecidableEq

/-- Request construction of `send_discord_webhook` (lines 174-189): skip with
a warning when no webhook url is configured, else POST the payload to it. -/
def send_discord_webhook (cfg : Config) (curr : Snapshot) (reason : String) :
    SendResult :=
  if cfg.webhook_url = "" then SendResult.skipped
  else SendResult.posted cfg.webhook_url none
    (webhook_payload cfg.user_id curr reason)

/-- Request construction of `send_discord_bot` (lines 193-210): skip with a
warning when the token or channel id is missing, else POST to the channel
messages endpoint with the bot Authorization header. -/
def send_discord_bot (cfg : Config) (curr : Snapshot) (reason : String) :
    SendResult :=
  if ¬(cfg.bot_token ≠ "" ∧ cfg.channel_id ≠ "") then SendResult.skipped
  else
    SendResult.posted
      ("https://discord.com/api/v10/channels/" ++ cfg.channel_id ++ "/messages")
      (some ("Bot " ++ cfg.bot_token))
      (bot_payload cfg.user_id curr reason)

/-- Startup validation in `main` (lines 222-225): `SystemExit` (non-zero
exit) when the Steam key or id is empty, or when webhook mode lacks a webhook
url.  Python string truthiness: an empty string is falsy. -/
def validate_config (cfg : Config) : Except String Unit :=
  if ¬(cfg.steam_api_key ≠ "" ∧ cfg.steam_friend_id64 ≠ "") then
    Except.error
      "Please set STEAM_API_KEY and STEAM_FRIEND_ID64 as env vars (or in .env locally)."
  else if cfg.bot_mode = false ∧ cfg.webhook_url = "" then
    Except.error
      "Provide DISCORD_WEBHOOK_URL (webhook mode) or set BOT_MODE=true with bot token+channel."
  else Except.ok ()

/-- Outcome of `fetch_steam_status` on one tick: an exception (transport
error, non-2xx, empty player list, decode error) or a decoded snapshot. -/
inductive FetchResult where
  | failed
  | fetched (curr : Snapshot)

/-- What the network does to the notification POST, when one is issued:
`requests.post` raises an exception, or it completes and returns an HTTP
status code.  A status of 300 or more is only logged (lines 190-191 and
211-212); neither send function raises on it. -/
inductive SendOutcome where
  | raised
  | completed (status : Nat)

/-- Executing the selected back-end send on one tick: a skipped send performs
no network call (so nothing can raise); a posted send raises exactly when the
underlying POST raises, and otherwise returns normally whatever the status
code was. -/
def run_send (cfg : Config) (curr : Snapshot) (reason : String)
    (outcome : SendOutcome) : Except Unit Unit :=
  match (if cfg.bot_mode then send_discord_bot cfg curr reason
         else send_discord_webhook cfg curr reason) with
  | SendResult.skipped => Except.ok ()
  | SendResult.posted _ _ _ =>
    match outcome with
    | SendOutcome.raised => Except.error ()
    | SendOutcome.completed _ => Except.ok ()

/-- One iteration of the supervisor loop body (lines 250-265): fetch, decide,
and on a positive decision send, then set `state = curr` and save.  Any
exception (fetch failure, or a send that raises) lands in the `except`
handlers, which log and leave both the in-memory state and the file as they
were.  Returns the new in-memory `state` and the new file contents. -/
def loop_tick (cfg : Config) (state : Option Snapshot) (file : Option Json)
    (fetch : FetchResult) (outcome : SendOutcome) (write_ok : Bool) :
    Option Snapshot × Option Json :=
  match fetch with
  | FetchResult.failed => (state, file)
  | FetchResult.fetched curr =>
    let d := should_notify cfg state curr
    if d.1 = true then
      match run_send cfg curr d.2 outcome with
      | Except.error _ => (state, file)
      | Except.ok _ => (some curr, save_last_status curr write_ok file)
    else (state, file)

/-! Concrete fixtures for witnesses and counterexamples. -/

/-- Webhook-mode configuration with no filters active. -/
def cfg0 : Config :=
  { steam_api_key := "k", steam_friend_id64 := "76561198000000000"
    webhook_url := "https://discord.example/webhook", user_id := ""
    bot_mode := false, bot_token := "", channel_id := ""
    only_online := false, only_games := [] }

/-- Webhook-mode configuration with a one-game filter and only_online off. -/
def cfgGames : Config :=
  { steam_api_key := "k", steam_friend_id64 := "76561198000000000"
    webhook_url := "https://discord.example/webhook", user_id := ""
    bot_mode := false, bot_token := "", channel_id := ""
    only_online := false, only_games := ["dota 2"] }

/-- Bot-mode configuration with token and channel id left empty. -/
def cfgBot : Config :=
  { steam_api_key := "k", steam_friend_id64 := "76561198000000000"
    webhook_url := "", user_id := ""
    bot_mode := true, bot_token := "", channel_id := ""
    only_online := false, only_games := [] }

/-- An offline snapshot, not in game. -/
def snapOffline : Snapshot :=
  { name := "A", state := "offline", personastate := 0, in_game := false
    game := none, avatar := some "", profile_url := none, timestamp := 0 }

/-- An online snapshot, not in game. -/
def snapOnline : Snapshot :=
  { name := "A", state := "online", personastate := 1, in_game := false
    game := none, avatar := some "", profile_url := none, timestamp := 1 }

/-- An away snapshot, not in game. -/
def snapAway : Snapshot :=
  { name := "A", state := "away", personastate := 3, in_game := false
    game := none, avatar := some "", profile_url := none, timestamp := 2 }

/-- An online snapshot playing a game with a title. -/
def snapPlaying : Snapshot :=
  { name := "A", state := "online", personastate := 1, in_game := true
    game := some "Dota 2", avatar := some "", profile_url := none
    timestamp := 3 }

/-- An online snapshot marked in game but with no game title. -/
def snapPlayingNoTitle : Snapshot :=
  { name := "A", state := "online", personastate := 1, in_game := true
    game := none, avatar := some "", profile_url := none, timestamp := 4 }

/-- An offline snapshot that nevertheless carries a current-game field. -/
def snapOfflineInGame : Snapshot :=
  { name := "A", state := "offline", personastate := 0, in_game := true
    game := some "Dota 2", avatar := some "", profile_url := none
    timestamp := 5 }

/-! Helper lemmas. -/

/-- Lowercasing a string yields the empty string only for the empty string. -/
theorem lowerStr_eq_empty {s : String} (h : lowerStr s = "") : s = "" := by
  cases s with
  | mk data =>
    have h2 : data.map Char.toLower = ([] : List Char) :=
      congrArg String.data h
    have h3 : data = [] := by simpa using h2
    simp [h3]

/-- A send whose POST completes never raises, whatever the status code. -/
theorem run_send_completed (cfg : Config) (curr : Snapshot) (reason : String)
    (status : Nat) :
    run_send cfg curr reason (SendOutcome.completed status) = Except.ok () := by
  unfold run_send
  split <;> rfl

/-! Claim theorems. -/

/-- C1, counterexample: a snapshot with persona state 0 that carries a game
produces a notification under empty filters, so an offline persona state does
not by itself suppress notifications. -/
theorem claim1_counterexample :
    snapOfflineInGame.personastate = 0
      ∧ should_notify cfg0 none snapOfflineInGame = (true, "started playing") := by
  constructor
  · rfl
  · rfl

/-- C1, amended: a snapshot with persona state 0 that is not in game never
produces a notification, regardless of prev and of the filter flags. -/
theorem claim1_offline_never_notifies (cfg : Config) (prev : Option Snapshot)
    (curr : Snapshot) (h0 : curr.personastate = 0) (h1 : curr.in_game = false) :
    should_notify cfg prev curr = (false, "") := by
  have hA : ¬(prev_personastate prev = 0 ∧ curr.personastate > 0) := by
    rintro ⟨_, hb⟩
    rw [h0] at hb
    exact absurd hb (by decide)
  have hB : ¬(prev_in_game prev = false ∧ curr.in_game = true) := by
    rintro ⟨_, hb⟩
    rw [h1] at hb
    exact Bool.noConfusion hb
  unfold should_notify
  rw [if_neg hA, if_neg hB]

/-- C1, witness for the amended theorem. -/
theorem claim1_witness : should_notify cfg0 none snapOffline = (false, "") :=
  claim1_offline_never_notifies cfg0 none snapOffline rfl rfl

/-- C4: from an offline prev to an online curr, the detector answers
`came online` unless only_online is set together with a non-empty
only_games list, in which case it answers `(false, "")`; in particular rule 1
decides the tick even when curr is simultaneously in game. -/
theorem claim4_came_online (cfg : Config) (prev : Option Snapshot)
    (curr : Snapshot) (h0 : prev_personastate prev = 0)
    (h1 : curr.personastate > 0) :
    should_notify cfg prev curr =
      if cfg.only_online = true ∧ cfg.only_games ≠ [] then (false, "")
      else (true, "came online") := by
  unfold should_notify
  rw [if_pos ⟨h0, h1⟩]
  by_cases ho : cfg.only_online = true <;>
    by_cases hg : cfg.only_games = [] <;>
    simp [ho, hg]

/-- C4, witness. -/
theorem claim4_witness :
    should_notify cfg0 (some snapOffline) snapOnline = (true, "came online") := by
  rw [claim4_came_online cfg0 (some snapOffline) snapOnline rfl (by decide)]
  decide

/-- C5: when curr satisfies the in-game invariant, prev is not in game, curr
is, and rule 1 does not apply, the detector answers `started playing` exactly
when only_online is off and the lowercased game title passes the only_games
filter, and `(false, "")` otherwise. -/
theorem claim5_started_playing (cfg : Config) (prev : Option Snapshot)
    (curr : Snapshot) (hinv : curr.in_game = true → curr.game.getD "" ≠ "")
    (hpg : prev_in_game prev = false) (hcg : curr.in_game = true)
    (hr1 : ¬(prev_personastate prev = 0 ∧ curr.personastate > 0)) :
    should_notify cfg prev curr =
      if cfg.only_online = false
          ∧ (cfg.only_games = [] ∨ lowerStr (curr.game.getD "") ∈ cfg.only_games)
      then (true, "started playing")
      else (false, "") := by
  have hname : lowerStr (curr.game.getD "") ≠ "" :=
    fun hc => (hinv hcg) (lowerStr_eq_empty hc)
  unfold should_notify
  rw [if_neg hr1, if_pos ⟨hpg, hcg⟩]
  by_cases hg : cfg.only_games = []
  · by_cases ho : cfg.only_online = true <;> simp [hg, ho]
  · by_cases hm : lowerStr (curr.game.getD "") ∈ cfg.only_games
    · by_cases ho : cfg.only_online = true <;> simp [hg, hm, ho]
    · by_cases ho : cfg.only_online = true <;> simp [hg, hm, ho, hname]

/-- C5, witness. -/
theorem claim5_witness :
    should_notify cfgGames (some snapOnline) snapPlaying
      = (true, "started playing") := by
  rw [claim5_started_playing cfgGames (some snapOnline) snapPlaying
    (by decide) rfl rfl (by decide)]
  decide

/-- C7: an absent prev is treated exactly like a present prev with persona
state 0 and in_game false, and in particular an absent prev with an away curr
yields `came online` under empty filters. -/
theorem claim7_absent_prev :
    (∀ (cfg : Config) (curr : Snapshot) (p0 : Snapshot),
        p0.personastate = 0 → p0.in_game = false →
        should_notify cfg none curr = should_notify cfg (some p0) curr)
      ∧ should_notify cfg0 none snapAway = (true, "came online") := by
  constructor
  · intro cfg curr p0 h0 hg
    simp only [should_notify, prev_personastate, prev_in_game, h0, hg]
  · rfl

/-- C7, witness. -/
theorem claim7_witness :
    should_notify cfg0 none snapAway = should_notify cfg0 (some snapOffline) snapAway :=
  claim7_absent_prev.1 cfg0 snapAway snapOffline rfl rfl

/-- C8: saving a snapshot and loading the status file back recovers every
field of the snapshot. -/
theorem claim8_roundtrip (s : Snapshot) :
    json_to_snapshot (load_last_status (save_last_status s true none))
      = some s := by
  cases s with
  | mk n st ps ig g av pu ts =>
    cases g <;> cases av <;> cases pu <;> rfl

/-- C9: the webhook back-end and the bot back-end build identical message
bodies for every snapshot, reason, and mention setting. -/
theorem claim9_payloads_equal (user_id : String) (curr : Snapshot)
    (reason : String) :
    webhook_payload user_id curr reason = bot_payload user_id curr reason := rfl

/-- C10: a snapshot marked in game with a missing or empty title bypasses the
only_games filter: with only_online off, a not-in-game prev at the same
persona state still yields `started playing` even though the non-empty
only_games list cannot match. -/
theorem claim10_empty_game_bypass (cfg : Config) (prev : Option Snapshot)
    (curr : Snapshot) (ho : cfg.only_online = false)
    (hg : cfg.only_games ≠ []) (hne : "" ∉ cfg.only_games)
    (hcg : curr.in_game = true) (htitle : curr.game.getD "" = "")
    (hpg : prev_in_game prev = false)
    (hps : prev_personastate prev = curr.personastate) :
    should_notify cfg prev curr = (true, "started playing") := by
  have hr1 : ¬(prev_personastate prev = 0 ∧ curr.personastate > 0) := by
    rintro ⟨ha, hb⟩
    rw [hps] at ha
    omega
  have hlow : lowerStr (curr.game.getD "") = "" := by rw [htitle]; rfl
  unfold should_notify
  rw [if_neg hr1, if_pos ⟨hpg, hcg⟩]
  rw [if_neg (by rintro ⟨_, hx, _⟩; exact hx hlow)]
  rw [if_neg (by rw [ho]; exact Bool.noConfusion)]

/-- C10, witness. -/
theorem claim10_witness :
    should_notify cfgGames (some snapOnline) snapPlayingNoTitle
      = (true, "started playing") :=
  claim10_empty_game_bypass cfgGames (some snapOnline) snapPlayingNoTitle
    rfl (by decide) (by decide) rfl rfl rfl rfl

/-- C2, counterexample: a tick whose notification POST completes with status
400 still advances the in-memory prev to curr and rewrites the status file,
so a failed send with HTTP status at least 300 does advance persisted state. -/
theorem claim2_counterexample :
    300 ≤ 400
      ∧ loop_tick cfg0 none none (FetchResult.fetched snapOnline)
          (SendOutcome.completed 400) true
        = (some snapOnline, some (snapshot_to_json snapOnline))
      ∧ (some snapOnline ≠ (none : Option Snapshot)) :=
  ⟨by decide, rfl, by simp⟩

/-- C2, amended: when the notification POST completes with any HTTP status,
including error statuses of 300 and above, a tick whose decision was positive
sets prev to curr and writes the status file (when the write succeeds); only
a send that raises leaves persisted state unchanged. -/
theorem claim2_failed_send_advances (cfg : Config) (state : Option Snapshot)
    (file : Option Json) (curr : Snapshot) (status : Nat) (write_ok : Bool)
    (h : (should_notify cfg state curr).1 = true) (hs : 300 ≤ status) :
    loop_tick cfg state file (FetchResult.fetched curr)
        (SendOutcome.completed status) write_ok
      = (some curr, save_last_status curr write_ok file) := by
  simp only [loop_tick, h, if_true, run_send_completed]

/-- C2, witness for the amended theorem. -/
theorem claim2_witness :
    loop_tick cfg0 none none (FetchResult.fetched snapOnline)
        (SendOutcome.completed 404) true
      = (some snapOnline, some (snapshot_to_json snapOnline)) := by
  rw [claim2_failed_send_advances cfg0 none none snapOnline 404 true rfl
    (by decide)]
  rfl

/-- C3, counterexample: on a tick whose decision is positive but whose
notification POST raises, prev does not become curr, so a positive decision
alone does not guarantee that prev advances to curr. -/
theorem claim3_counterexample :
    (should_notify cfg0 none snapOnline).1 = true
      ∧ (loop_tick cfg0 none none (FetchResult.fetched snapOnline)
            SendOutcome.raised true).1
          = (none : Option Snapshot) :=
  ⟨rfl, rfl⟩

/-- C3, amended: prev and the status file change only on a tick whose
decision is positive, and whenever they change, prev becomes exactly curr; a
tick with a negative decision (and likewise a failed fetch or a send that
raises) leaves both unchanged. -/
theorem claim3_update_policy (cfg : Config) (state : Option Snapshot)
    (file : Option Json) (fetch : FetchResult) (outcome : SendOutcome)
    (write_ok : Bool) :
    (∀ curr, fetch = FetchResult.fetched curr →
        (should_notify cfg state curr).1 = false →
        loop_tick cfg state file fetch outcome write_ok = (state, file))
      ∧ (loop_tick cfg state file fetch outcome write_ok ≠ (state, file) →
          ∃ curr, fetch = FetchResult.fetched curr
            ∧ (should_notify cfg state curr).1 = true
            ∧ (loop_tick cfg state file fetch outcome write_ok).1
                = some curr) := by
  cases fetch with
  | failed =>
    constructor
    · intro curr hcontra
      exact absurd hcontra (by simp)
    · intro hne
      exact absurd rfl hne
  | fetched c =>
    constructor
    · intro curr heq hfalse
      have hc : curr = c := by injection heq.symm
      subst hc
      simp only [loop_tick, hfalse]
      simp
    · intro hne
      by_cases hn : (should_notify cfg state c).1 = true
      · refine ⟨c, rfl, hn, ?_⟩
        cases hr : run_send cfg c (should_notify cfg state c).2 outcome with
        | error e =>
          exact absurd (by simp only [loop_tick, hn, if_true, hr]) hne
        | ok u =>
          simp only [loop_tick, hn, if_true, hr]
      · have hf : (should_notify cfg state c).1 = false :=
          Bool.eq_false_iff.mpr hn
        refine absurd ?_ hne
        simp only [loop_tick, hf]
        simp

/-- C3, witness for the amended theorem. -/
theorem claim3_witness :
    loop_tick cfg0 (some snapOnline) none (FetchResult.fetched snapOnline)
        (SendOutcome.completed 204) true
      = (some snapOnline, none) :=
  (claim3_update_policy cfg0 (some snapOnline) none
      (FetchResult.fetched snapOnline) (SendOutcome.completed 204) true).1
    snapOnline rfl rfl

/-- C6, counterexample: a bot-mode configuration with empty token and channel
id passes startup validation, so the program does not exit at startup in that
case. -/
theorem claim6_counterexample :
    cfgBot.bot_mode = true ∧ cfgBot.bot_token = "" ∧ cfgBot.channel_id = ""
      ∧ validate_config cfgBot = Except.ok () :=
  ⟨rfl, rfl, rfl, rfl⟩

/-- C6, amended: with bot mode on and the Steam key and id present, startup
validation succeeds even when the bot token or channel id is empty; each bot
send attempt is then skipped with a warning instead of the program exiting. -/
theorem claim6_bot_mode_not_fatal (cfg : Config) (curr : Snapshot)
    (reason : String) (hb : cfg.bot_mode = true)
    (hk : cfg.steam_api_key ≠ "") (hi : cfg.steam_friend_id64 ≠ "")
    (hm : cfg.bot_token = "" ∨ cfg.channel_id = "") :
    validate_config cfg = Except.ok ()
      ∧ send_discord_bot cfg curr reason = SendResult.skipped := by
  constructor
  · unfold validate_config
    rw [if_neg (fun hn => hn ⟨hk, hi⟩)]
    rw [if_neg (by rintro ⟨h1, _⟩; rw [hb] at h1; exact Bool.noConfusion h1)]
  · unfold send_discord_bot
    rw [if_pos]
    rintro ⟨h1, h2⟩
    cases hm with
    | inl h => exact h1 h
    | inr h => exact h2 h

/-- C6, witness for the amended theorem. -/
theorem claim6_witness :
    validate_config cfgBot = Except.ok ()
      ∧ send_discord_bot cfgBot snapOnline "r" = SendResult.skipped :=
  claim6_bot_mode_not_fatal cfgBot snapOnline "r" rfl (by decide) (by decide)
    (Or.inl rfl)

end SteamToDiscord
